import Mathlib

/-!
Shallow embedding of `src/resampling.py` (brainlife/app-resampling).

The repository wraps MNE-Python's resampling.  The file `resampling.py`
contains two functions:

* `resampling(data, events_matrix, param_epoched_data, param_sfreq, param_npad,
  param_window, param_stim_picks, param_n_jobs, param_raw_pad, param_epoch_pad,
  param_save_jointly_resampled_events)` — the branch structure around the MNE
  `data.resample` calls (lines 15-89);
* `main()` — reads the config and the optional events file, builds the events
  matrix (lines 128-156), checks the joint-save guard (lines 172-177), calls
  `resampling` (line 212), and, when events were jointly resampled, builds the
  trial-type map and writes the events table (lines 216-249).

Pure data is modelled directly; the numeric work done inside MNE
(`Raw.resample`, `Epochs.resample`, `write_raw_bids`) is not in this
repository, so those pieces are modelled from the spec and carry doc comments
starting with `Modelled from the spec:`.
-/

/-- One row of the external annotation table: `(sample_offset, value)`
(columns `sample` and `value` of the events file, lines 140-141). -/
abbrev EventRow := Nat × Int

/-- One row of the 3-column events matrix consumed by MNE:
`(absolute_sample, unused_channel_value, value)` (lines 144-152). -/
abbrev EventTriplet := Nat × Nat × Int

/-- One row of the emitted events table: `(onset sample, trial_type, value)`. -/
abbrev EventsTsvRow := Nat × String × Int

/-- The in-memory signal: sampling frequency, `first_samp` offset and number
of samples.  Sample values themselves play no role in any claim. -/
structure SignalBuffer where
  sfreq : Nat
  first_samp : Nat
  n_times : Nat
  deriving DecidableEq, Repr

/-- The `param_npad` parameter: the sentinel `"auto"` or an explicit amount
(lines 184-185 convert the string form to `int`). -/
inductive Npad where
  | auto : Npad
  | amount (n : Nat) : Npad
  deriving DecidableEq, Repr

/-- The `param_n_jobs` parameter: a CPU job count or the `"cuda"` sentinel
(lines 189-190). -/
inductive NJobs where
  | cpu (n : Nat) : NJobs
  | cuda : NJobs
  deriving DecidableEq, Repr

/-- Round-half-up of the rational `a / b` on naturals. -/
def roundNat (a b : Nat) : Nat := (2 * a + b) / (2 * b)

/-- Modelled from the spec: the event-index transform applied by MNE's
`Raw.resample` when an events array is passed (the repository delegates to it
at lines 67-69).  Each triplet's `absolute_sample` becomes
`round(absolute_sample * fs_new / fs_old)`; the other two columns are
unchanged and no row is added or removed. -/
def resampleEvents (fsOld fsNew : Nat) (events : List EventTriplet) : List EventTriplet :=
  events.map (fun t => (roundNat (t.1 * fsNew) fsOld, t.2.1, t.2.2))

/-- Modelled from the spec: the signal part of MNE `Raw.resample` /
`Epochs.resample` (external to the repository).  The new buffer is at the
target frequency with `round(n_old * fs_new / fs_old)` samples; padding,
window, stim picks and parallelism are performance knobs that do not change
the abstract result. -/
def mneResample (data : SignalBuffer) (sfreq : Nat) (npad : Npad) (window : String)
    (stim_picks : Option (List Int)) (n_jobs : NJobs) (pad : String) : SignalBuffer :=
  { sfreq := sfreq
    first_samp := roundNat (data.first_samp * sfreq) data.sfreq
    n_times := roundNat (data.n_times * sfreq) data.sfreq }

/-- The `resampling` function of `src/resampling.py` (lines 15-89).
Continuous data: if an events matrix is present and joint saving is
requested, the events are resampled jointly with the data, otherwise the data
is resampled with `events=None` and the events output is `None`.  Epoched
data is resampled with the epoch padding mode and the events output is always
`None`. -/
def resampling (data : SignalBuffer) (events_matrix : Option (List EventTriplet))
    (param_epoched_data : Bool) (param_sfreq : Nat) (param_npad : Npad)
    (param_window : String) (param_stim_picks : Option (List Int))
    (param_n_jobs : NJobs) (param_raw_pad : String) (param_epoch_pad : String)
    (param_save_jointly_resampled_events : Bool) :
    SignalBuffer × Option (List EventTriplet) :=
  if param_epoched_data = false then
    match events_matrix, param_save_jointly_resampled_events with
    | some em, true =>
        (mneResample data param_sfreq param_npad param_window param_stim_picks
           param_n_jobs param_raw_pad,
         some (resampleEvents data.sfreq param_sfreq em))
    | _, _ =>
        (mneResample data param_sfreq param_npad param_window param_stim_picks
           param_n_jobs param_raw_pad,
         none)
  else
    (mneResample data param_sfreq param_npad param_window none param_n_jobs
       param_epoch_pad,
     none)

/-- The events-matrix construction of `main` (lines 137-152): each row
`(sample_offset, value)` of the events file becomes the triplet
`(first_samp + sample_offset, 0, value)`, in order. -/
def eventsMatrixOfTable (rows : List EventRow) (first_samp : Nat) : List EventTriplet :=
  rows.map (fun r => (first_samp + r.1, 0, r.2))

/-- Distinct values in order of first appearance, the order of
`list(Counter(values).keys())` at lines 233-234. -/
def dedupKeepFirstAux : List Int → List Int → List Int
  | [], _ => []
  | v :: rest, seen =>
      if v ∈ seen then dedupKeepFirstAux rest seen
      else v :: dedupKeepFirstAux rest (v :: seen)

/-- Distinct values of a list in order of first appearance. -/
def dedupKeepFirst (values : List Int) : List Int := dedupKeepFirstAux values []

/-- The trial-type dictionary of `main` (lines 232-236): the distinct values
of the `value` column in order of first appearance, zipped with the labels
`events_1, events_2, ...`. -/
def trialTypeMap (values : List Int) : List (String × Int) :=
  let ids := dedupKeepFirst values
  let trials_type := (List.range ids.length).map (fun i => "events_" ++ toString (i + 1))
  trials_type.zip ids

/-- Label paired with a value in a trial-type dictionary (empty string when
absent). -/
def lookupLabel (m : List (String × Int)) (v : Int) : String :=
  match m.find? (fun p => p.2 = v) with
  | some p => p.1
  | none => ""

/-- Modelled from the spec: the events table written through `write_raw_bids`
(external to the repository, lines 240-246): one row per triplet, carrying
the resampled sample, the trial-type label resolved from the dictionary of
lines 232-236, and the value. -/
def writeEventsTsv (events : List EventTriplet) : List EventsTsvRow :=
  events.map (fun t => (t.1, lookupLabel (trialTypeMap (events.map (fun u => u.2.2))) t.2.2, t.2.2))

/-- The parameter set read from `config.json`, after the external
normalisation helpers. -/
structure Config where
  param_epoched_data : Bool
  param_sfreq : Nat
  param_npad : Npad
  param_window : String
  param_stim_picks : Option (List Int)
  param_n_jobs : NJobs
  param_raw_pad : String
  param_epoch_pad : String
  param_save_jointly_resampled_events : Bool
  deriving DecidableEq, Repr

/-- The computation phases `main` can perform, recorded as a trace. -/
inductive Step where
  | ingest : Step
  | resample : Step
  | emit : Step
  deriving DecidableEq, Repr

/-- The single error `main` can raise itself (the `ValueError` of
lines 172-177). -/
inductive MainError where
  | valueError (msg : String) : MainError
  deriving DecidableEq, Repr

/-- The message of the `ValueError` raised at lines 172-177. -/
def value_error_message : String := "You cannot save en empty events file."

/-- What `main` produces on success: the resampled buffer and, when events
were jointly resampled on continuous data, the emitted events table. -/
structure MainOutput where
  data_resampled : SignalBuffer
  events_tsv : Option (List EventsTsvRow)
  deriving DecidableEq, Repr

/-- The events-matrix extraction of `main` (lines 128-156): only for
continuous data with an events file present; otherwise `None`. -/
def extractEventsMatrix (config : Config) (events_file : Option (List EventRow))
    (data : SignalBuffer) : Option (List EventTriplet) :=
  if config.param_epoched_data = false then
    match events_file with
    | some rows => some (eventsMatrixOfTable rows data.first_samp)
    | none => none
  else
    none

/-- The flow of `main` (lines 92-258) on its in-memory data, with a trace of
the phases performed: extract the events matrix (lines 128-156); raise
`ValueError` when joint saving is requested with no events file
(lines 172-177); call `resampling` (line 212); when events were jointly
resampled and the data is continuous, emit the events table
(lines 216-249). -/
def mainRun (config : Config) (events_file : Option (List EventRow))
    (data : SignalBuffer) : List Step × Except MainError MainOutput :=
  let events_matrix := extractEventsMatrix config events_file data
  let trace0 : List Step := match events_matrix with
    | some _ => [Step.ingest]
    | none => []
  match events_file, config.param_save_jointly_resampled_events with
  | none, true =>
      (trace0, Except.error (MainError.valueError value_error_message))
  | _, _ =>
      let r := resampling data events_matrix config.param_epoched_data
        config.param_sfreq config.param_npad config.param_window
        config.param_stim_picks config.param_n_jobs config.param_raw_pad
        config.param_epoch_pad config.param_save_jointly_resampled_events
      let trace1 := trace0 ++ [Step.resample]
      match r.2, config.param_epoched_data with
      | some ev, false =>
          (trace1 ++ [Step.emit],
           Except.ok { data_resampled := r.1, events_tsv := some (writeEventsTsv ev) })
      | some _, true =>
          (trace1, Except.ok { data_resampled := r.1, events_tsv := none })
      | none, _ =>
          (trace1, Except.ok { data_resampled := r.1, events_tsv := none })

/-- A continuous-data configuration with joint event saving requested. -/
def baseConfig : Config :=
  { param_epoched_data := false
    param_sfreq := 500
    param_npad := Npad.auto
    param_window := "boxcar"
    param_stim_picks := none
    param_n_jobs := NJobs.cpu 1
    param_raw_pad := "reflect_limited"
    param_epoch_pad := "edge"
    param_save_jointly_resampled_events := true }

/-- An epoched-data configuration with joint event saving requested. -/
def epochedConfig : Config :=
  { baseConfig with param_epoched_data := true }

/-- A 1000 Hz signal buffer starting at sample 0 with 10000 samples. -/
def baseData : SignalBuffer :=
  { sfreq := 1000, first_samp := 0, n_times := 10000 }

/-- Strict order preservation of event samples under the modelled joint
resampling: whenever the triplet at position `i` has a strictly smaller
sample than the one at position `j`, the resampled triplets at the same
positions compare strictly the same way. -/
def strictOrderPreserved (fsOld fsNew : Nat) (ev : List EventTriplet) : Prop :=
  ∀ (i j : Nat) (a b p q : EventTriplet),
    ev[i]? = some a → ev[j]? = some b → a.1 < b.1 →
    (resampleEvents fsOld fsNew ev)[i]? = some p →
    (resampleEvents fsOld fsNew ev)[j]? = some q →
    p.1 < q.1

/-! ## Helper lemmas -/

/-- `roundNat` is monotone in its numerator. -/
theorem roundNat_mono {a b : Nat} (c : Nat) (h : a ≤ b) : roundNat a c ≤ roundNat b c :=
  Nat.div_le_div_right (by omega)

/-- Indexing a resampled events list is indexing the input and rescaling. -/
theorem resampleEvents_getElem (fsOld fsNew : Nat) (ev : List EventTriplet) (i : Nat) :
    (resampleEvents fsOld fsNew ev)[i]? =
      (ev[i]?).map (fun t => (roundNat (t.1 * fsNew) fsOld, t.2.1, t.2.2)) := by
  simp [resampleEvents]

/-- With no events file, the extracted events matrix is `None` regardless of
the configuration. -/
theorem extractEventsMatrix_none (config : Config) (data : SignalBuffer) :
    extractEventsMatrix config none data = none := by
  cases h : config.param_epoched_data <;> simp [extractEventsMatrix, h]

/-! ## Claim theorems -/

/-- C2: for every input event table and every `first_samp` offset, the ingest
step produces a matrix of the same length whose `i`-th triplet is exactly
`(first_samp + sample_offset_i, 0, value_i)`; rows are neither deduplicated
nor reordered. -/
theorem c2_ingest_exact (rows : List EventRow) (first_samp : Nat) :
    (eventsMatrixOfTable rows first_samp).length = rows.length ∧
    ∀ i : Nat, (eventsMatrixOfTable rows first_samp)[i]? =
      (rows[i]?).map (fun r => (first_samp + r.1, 0, r.2)) := by
  refine ⟨by simp [eventsMatrixOfTable], fun i => ?_⟩
  simp [eventsMatrixOfTable]

/-- C4: the number of event rows is preserved at every stage of the pipeline:
after ingest, after joint resampling, and in the emitted events table. -/
theorem c4_count_preserved (rows : List EventRow) (first_samp fsOld fsNew : Nat) :
    (eventsMatrixOfTable rows first_samp).length = rows.length ∧
    (resampleEvents fsOld fsNew (eventsMatrixOfTable rows first_samp)).length = rows.length ∧
    (writeEventsTsv (resampleEvents fsOld fsNew (eventsMatrixOfTable rows first_samp))).length
      = rows.length := by
  refine ⟨?_, ?_, ?_⟩ <;> simp [eventsMatrixOfTable, resampleEvents, writeEventsTsv]

/-- C7: on epoched data, `resampling` resamples with the epoch padding mode
and returns `None` for the events output, whatever events matrix was supplied
and whether or not joint saving was requested. -/
theorem c7_epoched_events_none (data : SignalBuffer) (em : Option (List EventTriplet))
    (sfreq : Nat) (npad : Npad) (window : String) (picks : Option (List Int))
    (n_jobs : NJobs) (raw_pad epoch_pad : String) (flag : Bool) :
    resampling data em true sfreq npad window picks n_jobs raw_pad epoch_pad flag =
      (mneResample data sfreq npad window none n_jobs epoch_pad, none) := rfl

/-- C8: on continuous data with joint saving not requested, `resampling`
resamples with `events=None` and returns `None` for the events output,
whatever events matrix was supplied; the input matrix is untouched. -/
theorem c8_no_joint_events_none (data : SignalBuffer) (em : Option (List EventTriplet))
    (sfreq : Nat) (npad : Npad) (window : String) (picks : Option (List Int))
    (n_jobs : NJobs) (raw_pad epoch_pad : String) :
    resampling data em false sfreq npad window picks n_jobs raw_pad epoch_pad false =
      (mneResample data sfreq npad window picks n_jobs raw_pad, none) := by
  cases em <;> rfl

/-- C10: `resampling` itself raises no error when joint saving is requested
with no events matrix: it is a total function that, on continuous data with
`events_matrix = None` and the joint flag set, takes the `events=None` branch
and returns `None` for the events output. -/
theorem c10_resampling_no_guard (data : SignalBuffer) (sfreq : Nat) (npad : Npad)
    (window : String) (picks : Option (List Int)) (n_jobs : NJobs)
    (raw_pad epoch_pad : String) :
    resampling data none false sfreq npad window picks n_jobs raw_pad epoch_pad true =
      (mneResample data sfreq npad window picks n_jobs raw_pad, none) := rfl

/-- C1: on any configuration (continuous or epoched) with joint event saving
requested and no events file supplied, `main` raises the `ValueError` of
lines 172-177 and the resampling phase is never reached. -/
theorem c1_guard_before_resampling (config : Config) (data : SignalBuffer)
    (h : config.param_save_jointly_resampled_events = true) :
    (mainRun config none data).2 =
        Except.error (MainError.valueError value_error_message) ∧
      Step.resample ∉ (mainRun config none data).1 := by
  obtain ⟨ep, sf, np, w, sp, nj, rp, epp, fl⟩ := config
  simp only at h
  subst h
  cases ep
  · exact ⟨rfl, by show Step.resample ∉ ([] : List Step); simp⟩
  · exact ⟨rfl, by show Step.resample ∉ ([] : List Step); simp⟩

/-- Witness for C1 at a concrete continuous-data configuration. -/
theorem c1_guard_before_resampling_witness :
    baseConfig.param_save_jointly_resampled_events = true ∧
      ((mainRun baseConfig none baseData).2 =
          Except.error (MainError.valueError value_error_message) ∧
        Step.resample ∉ (mainRun baseConfig none baseData).1) :=
  ⟨rfl, c1_guard_before_resampling baseConfig baseData rfl⟩

/-- C9: the guard also fires for epoched data: with `param_epoched_data`
true, joint saving requested and no events file, `main` raises the
`ValueError` before resampling, though epoched data never receives a joint
event update. -/
theorem c9_guard_fires_when_epoched (config : Config) (data : SignalBuffer)
    (hep : config.param_epoched_data = true)
    (h : config.param_save_jointly_resampled_events = true) :
    (mainRun config none data).2 =
        Except.error (MainError.valueError value_error_message) ∧
      Step.resample ∉ (mainRun config none data).1 := by
  obtain ⟨ep, sf, np, w, sp, nj, rp, epp, fl⟩ := config
  simp only at hep h
  subst hep
  subst h
  exact ⟨rfl, by show Step.resample ∉ ([] : List Step); simp⟩

/-- Witness for C9 at a concrete epoched-data configuration. -/
theorem c9_guard_fires_when_epoched_witness :
    epochedConfig.param_epoched_data = true ∧
      epochedConfig.param_save_jointly_resampled_events = true ∧
      ((mainRun epochedConfig none baseData).2 =
          Except.error (MainError.valueError value_error_message) ∧
        Step.resample ∉ (mainRun epochedConfig none baseData).1) :=
  ⟨rfl, rfl, c9_guard_fires_when_epoched epochedConfig baseData rfl rfl⟩

/-- C3: the trial-type map scans the value column in order: on the example
`[7, 3, 7, 9]` it associates `events_1` with `7`, `events_2` with `3` and
`events_3` with `9`; in general its values are exactly the distinct values of
the column in order of first appearance and its labels are
`events_1, events_2, ...` in that order, independent of value magnitude. -/
theorem c3_trial_type_map :
    trialTypeMap [7, 3, 7, 9] = [("events_1", 7), ("events_2", 3), ("events_3", 9)] ∧
    ∀ vs : List Int,
      (trialTypeMap vs).map Prod.snd = dedupKeepFirst vs ∧
      (trialTypeMap vs).map Prod.fst =
        (List.range (dedupKeepFirst vs).length).map (fun i => "events_" ++ toString (i + 1)) := by
  refine ⟨rfl, fun vs => ⟨?_, ?_⟩⟩
  · exact List.map_snd_zip _ _ (by simp [trialTypeMap])
  · exact List.map_fst_zip _ _ (by simp [trialTypeMap])

/-- Counterexample to C5: with a zero-row events file on continuous data and
joint saving requested, the events matrix is empty, yet `main` raises no
error: it returns success and emits an empty events table. -/
theorem c5_counterexample :
    eventsMatrixOfTable ([] : List EventRow) baseData.first_samp = [] ∧
      (mainRun baseConfig (some []) baseData).2 =
        Except.ok { data_resampled := { sfreq := 500, first_samp := 0, n_times := 5000 },
                    events_tsv := some [] } := ⟨rfl, rfl⟩

/-- C5 amended: the only fail-fast error is the `ValueError` raised when
joint saving is requested with no events file; an events matrix of length 0
is carried through and emitted as an empty table without error, and when
rescaling was not performed the emission phase is silently skipped with a
success result and no events table. -/
theorem c5_amended_empty_ok (config : Config) (data : SignalBuffer)
    (ef : Option (List EventRow)) (hep : config.param_epoched_data = false) :
    (config.param_save_jointly_resampled_events = true →
      (mainRun config (some []) data).2 =
        Except.ok { data_resampled := mneResample data config.param_sfreq
                      config.param_npad config.param_window config.param_stim_picks
                      config.param_n_jobs config.param_raw_pad,
                    events_tsv := some [] }) ∧
    (config.param_save_jointly_resampled_events = false →
      (mainRun config ef data).2 =
        Except.ok { data_resampled := mneResample data config.param_sfreq
                      config.param_npad config.param_window config.param_stim_picks
                      config.param_n_jobs config.param_raw_pad,
                    events_tsv := none }) := by
  obtain ⟨ep, sf, np, w, sp, nj, rp, epp, fl⟩ := config
  simp only at hep
  subst hep
  constructor
  · intro h
    simp only at h
    subst h
    rfl
  · intro h
    simp only at h
    subst h
    rcases ef with _ | rows <;> rfl

/-- Witness for the amended C5 at a concrete configuration and signal. -/
theorem c5_amended_empty_ok_witness :
    baseConfig.param_epoched_data = false ∧
      (mainRun baseConfig (some []) baseData).2 =
        Except.ok { data_resampled := { sfreq := 500, first_samp := 0, n_times := 5000 },
                    events_tsv := some [] } :=
  ⟨rfl, (c5_amended_empty_ok baseConfig baseData none rfl).1 rfl⟩

/-- Counterexample to C6: with consecutive samples 0 and 1 resampled from
1000 Hz to 250 Hz, both events land on sample 0, so strict ordering of event
samples is not preserved by the modelled joint resampling. -/
theorem c6_counterexample :
    ¬ strictOrderPreserved 1000 250 [(0, 0, 1), (1, 0, 2)] := by
  intro h
  have h01 := h 0 1 (0, 0, 1) (1, 0, 2) (0, 0, 1) (0, 0, 2) rfl rfl (by decide) rfl rfl
  exact absurd h01 (by decide)

/-- C6 amended: the modelled joint resampling is monotone, not strictly
monotone, on event samples: if the triplet at position `i` has a strictly
smaller sample than the one at position `j`, the resampled triplets at those
positions satisfy `≤` (ties can be created by downsampling). -/
theorem c6_amended_monotone (fsOld fsNew i j : Nat) (ev : List EventTriplet)
    (a b p q : EventTriplet)
    (ha : ev[i]? = some a) (hb : ev[j]? = some b) (hab : a.1 < b.1)
    (hp : (resampleEvents fsOld fsNew ev)[i]? = some p)
    (hq : (resampleEvents fsOld fsNew ev)[j]? = some q) :
    p.1 ≤ q.1 := by
  rw [resampleEvents_getElem, ha, Option.map_some'] at hp
  rw [resampleEvents_getElem, hb, Option.map_some'] at hq
  have hp1 : p.1 = roundNat (a.1 * fsNew) fsOld := by
    rw [← Option.some_inj.mp hp]
  have hq1 : q.1 = roundNat (b.1 * fsNew) fsOld := by
    rw [← Option.some_inj.mp hq]
  rw [hp1, hq1]
  exact roundNat_mono fsOld (Nat.mul_le_mul_right fsNew (Nat.le_of_lt hab))

/-- Witness for the amended C6: samples 3 and 5 at 1000 Hz resample to 2 and
3 at 500 Hz, and the theorem yields `2 ≤ 3`. -/
theorem c6_amended_monotone_witness :
    (resampleEvents 1000 500 [((3 : Nat), (0 : Nat), (1 : Int)), (5, 0, 2)])[0]? =
        some (2, 0, 1) ∧
      ((2 : Nat), (0 : Nat), (1 : Int)).1 ≤ ((3 : Nat), (0 : Nat), (2 : Int)).1 :=
  ⟨rfl, c6_amended_monotone 1000 500 0 1 [(3, 0, 1), (5, 0, 2)]
    (3, 0, 1) (5, 0, 2) (2, 0, 1) (3, 0, 2) rfl rfl (by decide) rfl rfl⟩
